import Mathlib

/-!
Verification development for the wallet-tracker backend (server/index.js).

The server aggregates native balances, token portfolios and transaction
history across five networks.  We shallowly embed the pure logic of the
request handler and its source adapters:

* JavaScript numbers are modelled as exact rationals (`ℚ`); the JS values
  `null`/`undefined` and `NaN` that flow through the native-balance fields
  are modelled by the inductive `JsVal`.
* Each upstream HTTP fetch is replaced by its *outcome*: an `Option` of the
  parsed payload, where `none` covers every failure the adapter swallows
  (network error, non-success status, unparseable JSON).  The `World`
  structure collects one outcome per upstream call of a single request.
* Environment variables `MORALIS_API_KEY` / `COVALENT_API_KEY` are modelled
  by their truthiness (`Env`).
-/

/-- A JavaScript value in a numeric position: `null`/`undefined`, `NaN`,
or an actual number (modelled exactly as a rational). -/
inductive JsVal where
  | null
  | nan
  | num (q : ℚ)
deriving DecidableEq, Repr

/-- Value of a non-empty all-digit decimal string; `none` otherwise.
Models JS `BigInt(s)` on the canonical unsigned decimal strings the
provider APIs produce (sign/hex/whitespace forms of `BigInt` are not
modelled; on those the adapters' `catch` paths apply). -/
def decVal? (s : String) : Option ℕ :=
  if s.length > 0 && s.toList.all Char.isDigit then
    some (s.toList.foldl (fun n c => n * 10 + (c.toNat - 48)) 0)
  else none

/-- JS `a || b` on an optional string `a`: the empty string is falsy. -/
def strOr (a : Option String) (b : String) : String :=
  match a with
  | some s => if s = "" then b else s
  | none => b

/-- Numeric value of a list of decimal digits. -/
def digitsVal (cs : List Char) : ℕ :=
  cs.foldl (fun n c => n * 10 + (c.toNat - 48)) 0

/-- JS `parseFloat`, as used in the `catch` branch of `getMoralisBalances`:
leading whitespace, optional sign, integer digits and an optional fraction
are modelled; exponent notation and `Infinity` are not (the strings that
reach this branch are non-numeric provider payloads).  Returns `NaN` when
no digits can be consumed. -/
def jsParseFloat (s : String) : JsVal :=
  let cs := s.toList.dropWhile fun c => c == ' ' || c == '\t' || c == '\n' || c == '\r'
  let sign : ℚ := match cs with
    | '-' :: _ => -1
    | _ => 1
  let cs1 := match cs with
    | '-' :: rest => rest
    | '+' :: rest => rest
    | _ => cs
  let intPart := cs1.takeWhile Char.isDigit
  let rest := cs1.dropWhile Char.isDigit
  let fracPart := match rest with
    | '.' :: r => r.takeWhile Char.isDigit
    | _ => []
  if intPart.isEmpty && fracPart.isEmpty then .nan
  else .num (sign * ((digitsVal intPart : ℚ) + (digitsVal fracPart : ℚ) / 10 ^ fracPart.length))

/-- The five supported networks (the keys of `CHAIN_INFO`). -/
inductive Network where
  | ethereum
  | polygon
  | binance
  | base
  | solana
deriving DecidableEq, Repr

/-- The network's identifier string, as used in the query parameter and
echoed in responses. -/
def Network.netId : Network → String
  | .ethereum => "ethereum"
  | .polygon => "polygon"
  | .binance => "binance"
  | .base => "base"
  | .solana => "solana"

/-- Chain identifier used by the Covalent integration: numeric for EVM
chains, the string `"solana"` for Solana. -/
inductive ChainId where
  | num (n : ℕ)
  | str (s : String)
deriving DecidableEq, Repr

/-- One entry of the `CHAIN_INFO` table. -/
structure ChainInfo where
  chainId : ChainId
  rpc : String
  nativeSymbol : String
  coinGeckoId : String
  moralisChain : String
deriving DecidableEq, Repr

/-- The `CHAIN_INFO` table of the source, keyed by `Network`. -/
def CHAIN_INFO : Network → ChainInfo
  | .ethereum => ⟨.num 1, "https://cloudflare-eth.com", "ETH", "ethereum", "eth"⟩
  | .polygon => ⟨.num 137, "https://polygon-rpc.com", "MATIC", "polygon", "polygon"⟩
  | .binance => ⟨.num 56, "https://bsc-dataseed.binance.org", "BNB", "binancecoin", "bsc"⟩
  | .base => ⟨.num 8453, "https://mainnet.base.org", "ETH", "ethereum", "base"⟩
  | .solana => ⟨.str "solana", "https://api.mainnet-beta.solana.com", "SOL", "solana", "solana"⟩

/-- Parse a network query-parameter string into a `Network` (an own
property of the `CHAIN_INFO` object literal). -/
def parseNetwork : String → Option Network
  | "ethereum" => some .ethereum
  | "polygon" => some .polygon
  | "binance" => some .binance
  | "base" => some .base
  | "solana" => some .solana
  | _ => none

/-- Property names every plain JS object literal inherits from
`Object.prototype`.  `CHAIN_INFO[network]` finds these too, and each of
them is a function or object, hence truthy. -/
def objectProtoProps : List String :=
  ["constructor", "hasOwnProperty", "isPrototypeOf", "propertyIsEnumerable",
   "toLocaleString", "toString", "valueOf", "__proto__",
   "__defineGetter__", "__defineSetter__", "__lookupGetter__", "__lookupSetter__"]

/-- Truthiness of the JS property lookup `CHAIN_INFO[network]`: true for
the five own keys and for every inherited `Object.prototype` member. -/
def chainInfoTruthy (s : String) : Bool :=
  (parseNetwork s).isSome || objectProtoProps.contains s

/-- A normalized token entry, as built by the provider balance adapters.
`contractName`/`symbol` are copied verbatim by the Covalent adapter (hence
optional); the Moralis adapter always produces strings.  `nativeToken` is
set (to `false`) only by the Moralis adapter; the Covalent adapter leaves
the property absent. -/
structure Token where
  contractName : Option String
  symbol : Option String
  balance : JsVal
  decimals : ℕ
  quote : ℚ
  nativeToken : Option Bool
deriving DecidableEq, Repr

/-- The native-token figures the Moralis adapter surfaces separately
(`nativeFromMoralis`): decimal-adjusted balance and USD value. -/
structure NativeInfo where
  balance : JsVal
  usd : ℚ
deriving DecidableEq, Repr

/-- The shape of a successful token-data result as consumed by the
handler.  The Moralis adapter fills all three fields; for a Covalent
result `nativeFromMoralis` is absent (`none`). -/
structure TokenData where
  tokens : List Token
  portfolioValueUsd : ℚ
  nativeFromMoralis : Option NativeInfo
deriving DecidableEq, Repr

/-- Successful result of `getCovalentBalances` (no native separation). -/
structure CovalentResult where
  tokens : List Token
  portfolioValueUsd : ℚ
deriving DecidableEq, Repr

/-- Reading a Covalent result where the handler expects `tokenData`: the
`nativeFromMoralis` property is absent, i.e. `none`. -/
def covalentToTokenData (r : CovalentResult) : TokenData :=
  ⟨r.tokens, r.portfolioValueUsd, none⟩

/-- One item of the Moralis wallet-tokens payload, restricted to the
fields the adapter reads.  `decimals` and `usd_value` may be absent
(`Number(item.decimals || 0)` resp. `item.usd_value ? Number(...) : 0`). -/
structure MoralisItem where
  name : Option String
  token_address : Option String
  symbol : Option String
  balance : String
  decimals : Option ℕ
  usd_value : Option ℚ
  native_token : Bool
deriving DecidableEq, Repr

/-- One item of the Covalent `balances_v2` payload, restricted to the
fields on the wire that matter here.  `native_token` is present in the
wire format but never read by `getCovalentBalances`. -/
structure CovalentItem where
  contract_name : Option String
  contract_ticker_symbol : Option String
  balance : String
  contract_decimals : Option ℕ
  quote : Option ℚ
  native_token : Bool
deriving DecidableEq, Repr

/-- Decimal-adjusted balance of a Moralis item:
`BigInt(item.balance || '0') / 10 ** decimals`, falling back to
`parseFloat(item.balance || '0')` (no decimal adjustment) when `BigInt`
throws. -/
def moralisTokenBalance (s : String) (decimals : ℕ) : JsVal :=
  let s0 := if s = "" then "0" else s
  match decVal? s0 with
  | some n => .num ((n : ℚ) / 10 ^ decimals)
  | none => jsParseFloat s0

/-- `item.usd_value ? Number(item.usd_value) : 0`. -/
def moralisUsd (it : MoralisItem) : ℚ :=
  it.usd_value.getD 0

/-- The token record the Moralis adapter pushes for a non-native item. -/
def moralisToken (it : MoralisItem) : Token :=
  ⟨some (strOr it.name (strOr it.token_address "")),
   some (strOr it.symbol ""),
   moralisTokenBalance it.balance (it.decimals.getD 0),
   it.decimals.getD 0,
   moralisUsd it,
   some false⟩

/-- The native-token figures saved aside for a native Moralis item. -/
def moralisNativeInfo (it : MoralisItem) : NativeInfo :=
  ⟨moralisTokenBalance it.balance (it.decimals.getD 0), moralisUsd it⟩

/-- A Moralis item that ends up in the token list: non-zero raw balance
and not the native token. -/
def moralisKeepToken (it : MoralisItem) : Bool :=
  decide (it.balance ≠ "0") && !it.native_token

/-- A Moralis item that updates `nativeFromMoralis`: non-zero raw balance
and flagged as the native token. -/
def moralisKeepNative (it : MoralisItem) : Bool :=
  decide (it.balance ≠ "0") && it.native_token

/-- Loop state of the `for` loop in `getMoralisBalances`. -/
structure MoralisAcc where
  portfolioValueUsd : ℚ
  nativeFromMoralis : Option NativeInfo
  tokens : List Token
deriving DecidableEq, Repr

/-- One iteration of the `for` loop in `getMoralisBalances`: skip items
with raw balance `'0'`; save a native item aside (overwriting); push any
other item onto the token list and add its USD value to the portfolio
total. -/
def moralisStep (acc : MoralisAcc) (it : MoralisItem) : MoralisAcc :=
  if it.balance = "0" then acc
  else if it.native_token then
    ⟨acc.portfolioValueUsd, some (moralisNativeInfo it), acc.tokens⟩
  else
    ⟨acc.portfolioValueUsd + moralisUsd it, acc.nativeFromMoralis, acc.tokens ++ [moralisToken it]⟩

/-- The body of `getMoralisBalances` applied to the parsed item list
(`json?.result || []`). -/
def processMoralisItems (items : List MoralisItem) : TokenData :=
  let acc := items.foldl moralisStep ⟨0, none, []⟩
  ⟨acc.tokens, acc.portfolioValueUsd, acc.nativeFromMoralis⟩

/-- `getMoralisBalances`: `null` without an API key or on any fetch /
parse failure; otherwise the processed item list. -/
def getMoralisBalances (apiKey : Bool) (payload : Option (List MoralisItem)) : Option TokenData :=
  if apiKey = false then none else payload.map processMoralisItems

/-- The filter of `getCovalentBalances`:
`item.balance !== '0' && item.quote !== 0` (a `null` quote is kept). -/
def covalentKeep (it : CovalentItem) : Bool :=
  decide (it.balance ≠ "0") && decide (it.quote ≠ some 0)

/-- The map of `getCovalentBalances` on one kept item:
`BigInt(item.balance || '0') / 10 ** (item.contract_decimals || 0)`;
`none` when `BigInt` throws (which aborts the whole adapter). -/
def covalentConv (it : CovalentItem) : Option Token :=
  (decVal? (if it.balance = "" then "0" else it.balance)).map fun n =>
    ⟨it.contract_name, it.contract_ticker_symbol,
     .num ((n : ℚ) / 10 ^ (it.contract_decimals.getD 0)),
     it.contract_decimals.getD 0,
     it.quote.getD 0,
     none⟩

/-- Convert the kept Covalent items in order; `none` as soon as one raw
balance fails to parse (the thrown exception discards the whole result). -/
def covalentMapTokens : List CovalentItem → Option (List Token)
  | [] => some []
  | it :: rest =>
    match covalentConv it, covalentMapTokens rest with
    | some t, some ts => some (t :: ts)
    | _, _ => none

/-- Portfolio total accumulated over the kept items:
`portfolioValueUsd += item.quote || 0`. -/
def covalentPortfolio (kept : List CovalentItem) : ℚ :=
  kept.foldl (fun s it => s + it.quote.getD 0) 0

/-- The body of `getCovalentBalances` applied to the parsed item list
(`json?.data?.items || []`): filter, then map with the running USD sum. -/
def processCovalentItems (items : List CovalentItem) : Option CovalentResult :=
  let kept := items.filter covalentKeep
  match covalentMapTokens kept with
  | some ts => some ⟨ts, covalentPortfolio kept⟩
  | none => none

/-- `getCovalentBalances`: `null` without an API key or on any fetch /
parse failure; otherwise filter-and-map over the items. -/
def getCovalentBalances (apiKey : Bool) (payload : Option (List CovalentItem)) : Option CovalentResult :=
  if apiKey = false then none else payload.bind processCovalentItems

/-- `getEvmNativeBalance`: the input is the parsed integer of the RPC
`result` hex string (`none` covers fetch failure, a falsy `result` and a
`BigInt` parse error); on success the wei amount divided by `1e18`. -/
def getEvmNativeBalance (result : Option ℤ) : JsVal :=
  match result with
  | none => .null
  | some wei => .num ((wei : ℚ) / 1000000000000000000)

/-- `getSolanaBalance`: the input is `json?.result?.value` coerced as a
JS number (`.null` for an absent value or any fetch failure, `.nan` for a
non-numeric value); a numeric lamports amount is divided by `1e9`. -/
def getSolanaBalance (value : JsVal) : JsVal :=
  match value with
  | .null => .null
  | .nan => .nan
  | .num lamports => .num (lamports / 1000000000)

/-- One raw Solana signature entry (`getSignaturesForAddress`); the
handler passes these through unmodified. -/
structure SolanaSig where
  signature : String
  slot : ℕ
  blockTime : Option ℤ
  err : Option String
deriving DecidableEq, Repr

/-- `getSolanaSignatures`: `json?.result || []` on success (the `|| []`
is folded into the payload), `null` on any failure. -/
def getSolanaSignatures (payload : Option (List SolanaSig)) : Option (List SolanaSig) :=
  payload

/-- One item of the Moralis wallet-history payload, restricted to the
fields the mapping reads; numeric fields are modelled post-coercion and
`receipt_status` carries the value of `Boolean(tx.receipt_status)`. -/
structure MoralisTxItem where
  hash : Option String
  transaction_hash : Option String
  from_address : Option String
  from_ : Option String
  to_address : Option String
  to_ : Option String
  value : Option ℚ
  value_usd : Option ℚ
  block_timestamp : Option String
  block_signed_at : Option String
  receipt_status : Option Bool
deriving DecidableEq, Repr

/-- The simplified transaction record produced by
`getMoralisTransactions`. -/
structure MoralisTx where
  txHash : String
  from_ : String
  to_ : String
  value : ℚ
  valueQuote : Option ℚ
  timestamp : String
  successful : Bool
deriving DecidableEq, Repr

/-- The per-item mapping of `getMoralisTransactions`, with the source's
`||` fallback chains and truthiness checks (`tx.value_usd ? ... : null`
turns a zero USD value into `null`). -/
def moralisTxRecord (tx : MoralisTxItem) : MoralisTx :=
  ⟨strOr tx.hash (strOr tx.transaction_hash ""),
   strOr tx.from_address (strOr tx.from_ ""),
   strOr tx.to_address (strOr tx.to_ ""),
   tx.value.getD 0,
   tx.value_usd.bind (fun q => if q = 0 then none else some q),
   strOr tx.block_timestamp (strOr tx.block_signed_at ""),
   tx.receipt_status.getD true⟩

/-- `getMoralisTransactions`: `null` without an API key or on failure;
otherwise the mapped item list. -/
def getMoralisTransactions (apiKey : Bool) (payload : Option (List MoralisTxItem)) :
    Option (List MoralisTx) :=
  if apiKey = false then none else payload.map (List.map moralisTxRecord)

/-- One item of the Covalent `transactions_v3` payload, restricted to the
fields the mapping copies. -/
structure CovalentTxItem where
  tx_hash : Option String
  from_address : Option String
  to_address : Option String
  value : Option String
  value_quote : Option ℚ
  gas_spent : Option ℕ
  gas_quote : Option ℚ
  successful : Option Bool
  block_signed_at : Option String
deriving DecidableEq, Repr

/-- The simplified transaction record produced by
`getCovalentTransactions` (verbatim field copies). -/
structure CovalentTx where
  txHash : Option String
  from_ : Option String
  to_ : Option String
  value : Option String
  valueQuote : Option ℚ
  gasSpent : Option ℕ
  gasQuote : Option ℚ
  successful : Option Bool
  timestamp : Option String
deriving DecidableEq, Repr

/-- The per-item mapping of `getCovalentTransactions`. -/
def covalentTxRecord (tx : CovalentTxItem) : CovalentTx :=
  ⟨tx.tx_hash, tx.from_address, tx.to_address, tx.value, tx.value_quote,
   tx.gas_spent, tx.gas_quote, tx.successful, tx.block_signed_at⟩

/-- `getCovalentTransactions`: `null` without an API key or on failure;
otherwise the mapped item list. -/
def getCovalentTransactions (apiKey : Bool) (payload : Option (List CovalentTxItem)) :
    Option (List CovalentTx) :=
  if apiKey = false then none else payload.map (List.map covalentTxRecord)

/-- Truthiness of the two provider API keys in the process environment. -/
structure Env where
  moralisKey : Bool
  covalentKey : Bool
deriving DecidableEq, Repr

/-- The outcomes of the upstream calls a single request may issue.  Each
field is the parsed payload of one fetch, with `none`/`.null` standing
for any failure the corresponding adapter swallows.  `price` is the
outcome of `getNativePriceUsd` (CoinGecko). -/
structure World where
  evmWeiResult : Option ℤ
  solanaLamports : JsVal
  moralisBalancesPayload : Option (List MoralisItem)
  covalentBalancesPayload : Option (List CovalentItem)
  price : Option ℚ
  moralisTxPayload : Option (List MoralisTxItem)
  covalentTxPayload : Option (List CovalentTxItem)
  solanaSigsPayload : Option (List SolanaSig)
deriving DecidableEq, Repr

/-- The world in which every upstream call fails. -/
def worldNone : World :=
  ⟨none, .null, none, none, none, none, none, none⟩

/-- Step 1 of the balances handler: the native balance from the
network-appropriate RPC adapter. -/
def rpcNativeOf (nw : Network) (w : World) : JsVal :=
  if nw = .solana then getSolanaBalance w.solanaLamports
  else getEvmNativeBalance w.evmWeiResult

/-- Step 2 of the balances handler: token-data selection.  Returns the
pair `(tokenData, moralisNative)` exactly as the two handler variables
are assigned: Moralis for every network when its key is configured;
otherwise Covalent for EVM networks when its key is configured; otherwise
nothing.  `moralisNative` is only ever set from a Moralis result. -/
def tokenFetch (nw : Network) (env : Env) (w : World) :
    Option TokenData × Option NativeInfo :=
  if nw = .solana then
    if env.moralisKey then
      let td := getMoralisBalances env.moralisKey w.moralisBalancesPayload
      (td, td.bind (·.nativeFromMoralis))
    else (none, none)
  else
    if env.moralisKey then
      let td := getMoralisBalances env.moralisKey w.moralisBalancesPayload
      (td, td.bind (·.nativeFromMoralis))
    else if env.covalentKey then
      ((getCovalentBalances env.covalentKey w.covalentBalancesPayload).map covalentToTokenData,
       none)
    else (none, none)

/-- Step 4: `nativeValueUsd = nativeBalance * priceUsd` when
`nativeBalance != null && priceUsd != null` (a `NaN` balance is not
`null`, so it produces a `NaN` product); `null` otherwise. -/
def nativeValueUsd0 (nw : Network) (w : World) : JsVal :=
  match rpcNativeOf nw w, w.price with
  | .num q, some p => .num (q * p)
  | .nan, some _ => .nan
  | _, _ => .null

/-- Step 5: if the RPC balance is `null` or `NaN` and Moralis surfaced a
native balance, substitute it. -/
def nativeBalanceFinal (nw : Network) (env : Env) (w : World) : JsVal :=
  match rpcNativeOf nw w, (tokenFetch nw env w).2 with
  | .null, some mn => mn.balance
  | .nan, some mn => mn.balance
  | nb, _ => nb

/-- Step 6: if step 4 produced `null` and Moralis surfaced a native USD
value, substitute it (`moralisNative.usd` is always a number, so the
`!= null` guard on it always holds). -/
def nativeValueUsdFinal (nw : Network) (env : Env) (w : World) : JsVal :=
  match nativeValueUsd0 nw w, (tokenFetch nw env w).2 with
  | .null, some mn => .num mn.usd
  | v, _ => v

/-- The JSON body of a 200 balances response. -/
structure BalancesBody where
  network : String
  address : String
  nativeBalance : JsVal
  nativeSymbol : String
  nativeValueUsd : JsVal
  tokenBalances : Option (List Token)
  tokenPortfolioValueUsd : Option ℚ
deriving DecidableEq, Repr

/-- The `/api/balances` success path of `handleRequest` for a resolved
network: compose the response from the RPC balance, the selected token
data, the price lookup and the two fallback substitutions. -/
def handleBalances (nw : Network) (a : String) (env : Env) (w : World) : BalancesBody :=
  ⟨nw.netId, a,
   nativeBalanceFinal nw env w,
   (CHAIN_INFO nw).nativeSymbol,
   nativeValueUsdFinal nw env w,
   ((tokenFetch nw env w).1).map (·.tokens),
   ((tokenFetch nw env w).1).map (·.portfolioValueUsd)⟩

/-- The `transactions` field of a transactions response: raw Solana
signature entries, or one of the two providers' mapped histories. -/
inductive TxData where
  | solanaSigs (sigs : List SolanaSig)
  | moralis (txs : List MoralisTx)
  | covalent (txs : List CovalentTx)
deriving DecidableEq, Repr

/-- The JSON body of a 200 transactions response. -/
structure TxBody where
  network : String
  address : String
  transactions : Option TxData
deriving DecidableEq, Repr

/-- The `/api/transactions` success path of `handleRequest` for a
resolved network: Solana delegates to the signature adapter; EVM networks
prefer Moralis, then Covalent, else an explicit `null`. -/
def handleTransactions (nw : Network) (a : String) (env : Env) (w : World) : TxBody :=
  let txs : Option TxData :=
    if nw = .solana then
      (getSolanaSignatures w.solanaSigsPayload).map TxData.solanaSigs
    else if env.moralisKey then
      (getMoralisTransactions env.moralisKey w.moralisTxPayload).map TxData.moralis
    else if env.covalentKey then
      (getCovalentTransactions env.covalentKey w.covalentTxPayload).map TxData.covalent
    else none
  ⟨nw.netId, a, txs⟩

/-- The outcome of `handleRequest` on one request.  The `Junk` outcomes
are the 200 responses produced when the network string is an inherited
`Object.prototype` property: validation passes, every upstream lookup
degrades to `null`/failed, and a 200 body with junk fields is sent. -/
inductive HttpOutcome where
  | noContent
  | badRequest (error : String)
  | okBalances (body : BalancesBody)
  | okBalancesJunk
  | okTransactions (body : TxBody)
  | okTransactionsJunk
  | staticFile
  | notFound
deriving DecidableEq, Repr

/-- HTTP status code of an outcome. -/
def HttpOutcome.status : HttpOutcome → ℕ
  | .noContent => 204
  | .badRequest _ => 400
  | .okBalances _ => 200
  | .okBalancesJunk => 200
  | .okTransactions _ => 200
  | .okTransactionsJunk => 200
  | .staticFile => 200
  | .notFound => 404

/-- `handleRequest`: CORS preflight, the two API routes with their shared
validation (`!network || !address || !CHAIN_INFO[network]` — a missing or
empty parameter is falsy), the static-file branch (file existence check
elided; out of scope), and 404.  Unanticipated exceptions (the 500 path)
cannot arise in this total model. -/
def handleRequest (method pathname : String) (network address : Option String)
    (env : Env) (w : World) : HttpOutcome :=
  if method = "OPTIONS" then .noContent
  else if pathname = "/api/balances" ∧ method = "GET" then
    match network, address with
    | some n, some a =>
      if n = "" ∨ a = "" ∨ chainInfoTruthy n = false then
        .badRequest "Missing or invalid network/address"
      else
        match parseNetwork n with
        | some nw => .okBalances (handleBalances nw a env w)
        | none => .okBalancesJunk
    | _, _ => .badRequest "Missing or invalid network/address"
  else if pathname = "/api/transactions" ∧ method = "GET" then
    match network, address with
    | some n, some a =>
      if n = "" ∨ a = "" ∨ chainInfoTruthy n = false then
        .badRequest "Missing or invalid network/address"
      else
        match parseNetwork n with
        | some nw => .okTransactions (handleTransactions nw a env w)
        | none => .okTransactionsJunk
    | _, _ => .badRequest "Missing or invalid network/address"
  else if pathname = "/" ∨ pathname = "/index.html" ∨ pathname = "/style.css" ∨
      pathname = "/script.js" ∨ pathname.startsWith "/static/" then .staticFile
  else .notFound

/-! ### Helper lemmas -/

theorem parseNetwork_netId (nw : Network) : parseNetwork nw.netId = some nw := by
  cases nw <;> rfl

theorem netId_ne_empty (nw : Network) : nw.netId ≠ "" := by
  cases nw <;> decide

theorem chainInfoTruthy_netId (nw : Network) : chainInfoTruthy nw.netId = true := by
  cases nw <;> decide

theorem option_or_assoc (a b c : Option α) : (a.or b).or c = a.or (b.or c) := by
  cases a <;> rfl

theorem option_some_or (v : α) (b : Option α) : (some v).or b = some v := rfl

theorem option_none_or (b : Option α) : (Option.none).or b = b := by
  cases b <;> rfl

theorem option_or_none (a : Option α) : a.or none = a := by
  cases a <;> rfl

theorem option_map_or (f : α → β) (a b : Option α) :
    (a.or b).map f = (a.map f).or (b.map f) := by
  cases a <;> rfl

theorem getLast?_cons_or (a : α) (l : List α) :
    (a :: l).getLast? = l.getLast?.or (some a) := by
  induction l generalizing a with
  | nil => rfl
  | cons b t ih =>
    rw [List.getLast?_cons_cons, ih b]
    cases t.getLast? <;> rfl

/-- Full characterization of the `getMoralisBalances` loop: starting from
any accumulator, the portfolio total grows by the USD values of the kept
non-native items, the token list is extended by their conversions in
order, and `nativeFromMoralis` becomes the info of the *last* kept native
item (keeping the initial value when there is none). -/
theorem moralis_foldl_char (items : List MoralisItem) : ∀ acc : MoralisAcc,
    items.foldl moralisStep acc =
      ⟨acc.portfolioValueUsd + ((items.filter moralisKeepToken).map moralisUsd).sum,
       (((items.filter moralisKeepNative).getLast?).map moralisNativeInfo).or acc.nativeFromMoralis,
       acc.tokens ++ (items.filter moralisKeepToken).map moralisToken⟩ := by
  induction items with
  | nil => intro acc; simp [List.foldl]
  | cons it rest ih =>
    intro acc
    rw [List.foldl_cons, ih (moralisStep acc it)]
    by_cases hz : it.balance = "0"
    · have hkt : moralisKeepToken it = false := by
        simp [moralisKeepToken, hz]
      have hkn : moralisKeepNative it = false := by
        simp [moralisKeepNative, hz]
      simp [moralisStep, hz, List.filter_cons, hkt, hkn]
    · by_cases hn : it.native_token
      · have hkt : moralisKeepToken it = false := by
          simp [moralisKeepToken, hn]
        have hkn : moralisKeepNative it = true := by
          simp [moralisKeepNative, hz, hn]
        have hstep : moralisStep acc it =
            ⟨acc.portfolioValueUsd, some (moralisNativeInfo it), acc.tokens⟩ := by
          simp [moralisStep, hz, hn]
        rw [hstep]
        have hft : (it :: rest).filter moralisKeepToken = rest.filter moralisKeepToken := by
          simp [List.filter_cons, hkt]
        have hfn : (it :: rest).filter moralisKeepNative =
            it :: rest.filter moralisKeepNative := by
          simp [List.filter_cons, hkn]
        rw [hft, hfn, getLast?_cons_or, option_map_or, option_or_assoc]
        rfl
      · have hkt : moralisKeepToken it = true := by
          simp [moralisKeepToken, hz, hn]
        have hkn : moralisKeepNative it = false := by
          simp [moralisKeepNative, hn]
        have hstep : moralisStep acc it =
            ⟨acc.portfolioValueUsd + moralisUsd it, acc.nativeFromMoralis,
             acc.tokens ++ [moralisToken it]⟩ := by
          simp [moralisStep, hz, hn]
        rw [hstep]
        have hft : (it :: rest).filter moralisKeepToken =
            it :: rest.filter moralisKeepToken := by
          simp [List.filter_cons, hkt]
        have hfn : (it :: rest).filter moralisKeepNative = rest.filter moralisKeepNative := by
          simp [List.filter_cons, hkn]
        rw [hft, hfn]
        simp [List.map_cons, List.sum_cons, add_assoc]

/-- The three fields of a processed Moralis payload, in closed form. -/
theorem processMoralisItems_char (items : List MoralisItem) :
    processMoralisItems items =
      ⟨(items.filter moralisKeepToken).map moralisToken,
       ((items.filter moralisKeepToken).map moralisUsd).sum,
       ((items.filter moralisKeepNative).getLast?).map moralisNativeInfo⟩ := by
  unfold processMoralisItems
  rw [moralis_foldl_char]
  simp [option_or_none]

/-- Filtering by `p` first does not change a filter by a stronger `q`. -/
theorem filter_subsume (p q : α → Bool) (h : ∀ a, q a = true → p a = true) :
    ∀ l : List α, (l.filter p).filter q = l.filter q := by
  intro l
  induction l with
  | nil => rfl
  | cons a t ih =>
    by_cases hq : q a = true
    · have hp : p a = true := h a hq
      simp [List.filter_cons, hp, hq, ih]
    · have hq' : q a = false := by
        cases hqa : q a
        · rfl
        · exact absurd hqa hq
      cases hpa : p a <;> simp [List.filter_cons, hpa, hq', ih]

/-- Removing the raw-balance-`'0'` items does not change the Moralis loop. -/
theorem moralis_foldl_filter_zero (items : List MoralisItem) : ∀ acc : MoralisAcc,
    (items.filter fun it => decide (it.balance ≠ "0")).foldl moralisStep acc =
      items.foldl moralisStep acc := by
  induction items with
  | nil => intro acc; rfl
  | cons it rest ih =>
    intro acc
    by_cases hz : it.balance = "0"
    · have hd : decide (it.balance ≠ "0") = false := by simp [hz]
      have hs : moralisStep acc it = acc := by simp [moralisStep, hz]
      simp only [List.filter_cons, hd, Bool.false_eq_true, if_false, List.foldl_cons, hs]
      exact ih acc
    · have hd : decide (it.balance ≠ "0") = true := by simp [hz]
      simp only [List.filter_cons, hd, if_true, List.foldl_cons]
      exact ih (moralisStep acc it)

/-- A pre-filter that keeps everything `covalentKeep` keeps does not
change `processCovalentItems`. -/
theorem processCovalentItems_filter (p : CovalentItem → Bool)
    (h : ∀ it, covalentKeep it = true → p it = true) (items : List CovalentItem) :
    processCovalentItems (items.filter p) = processCovalentItems items := by
  unfold processCovalentItems
  rw [filter_subsume p covalentKeep h items]

/-- A Covalent item with the (unread) `native_token` flag replaced. -/
def covSetNative (b : Bool) (it : CovalentItem) : CovalentItem :=
  ⟨it.contract_name, it.contract_ticker_symbol, it.balance, it.contract_decimals, it.quote, b⟩

theorem covalentMapTokens_setNative (b : Bool) :
    ∀ l : List CovalentItem, covalentMapTokens (l.map (covSetNative b)) = covalentMapTokens l := by
  intro l
  induction l with
  | nil => rfl
  | cons it rest ih =>
    have hconv : covalentConv (covSetNative b it) = covalentConv it := rfl
    simp only [List.map_cons, covalentMapTokens, hconv, ih]

/-- `getCovalentBalances` never reads `native_token`: flipping the flag on
every item leaves the result unchanged (no native separation happens). -/
theorem processCovalentItems_setNative (b : Bool) (items : List CovalentItem) :
    processCovalentItems (items.map (covSetNative b)) = processCovalentItems items := by
  have hkeep : (items.map (covSetNative b)).filter covalentKeep =
      (items.filter covalentKeep).map (covSetNative b) := by
    rw [List.filter_map]
    rfl
  have hmap := covalentMapTokens_setNative b (items.filter covalentKeep)
  have hport : covalentPortfolio ((items.filter covalentKeep).map (covSetNative b)) =
      covalentPortfolio (items.filter covalentKeep) := by
    unfold covalentPortfolio
    rw [List.foldl_map]
    rfl
  simp only [processCovalentItems, hkeep, hmap, hport]

/-! ### Claim theorems: adapters -/

/-- Claim C2 (amended): only the Moralis token-balance adapter surfaces an
inline native token separately.  For Moralis: the returned token list and
the portfolio USD total range exactly over the non-native non-zero items,
and `nativeFromMoralis` carries the figures of the last native non-zero
item.  The Covalent adapter performs no native separation: its result is
independent of the items' `native_token` flag, and the `tokenData` the
handler builds from it never carries a provider-native value. -/
theorem native_token_separation :
    (∀ items : List MoralisItem,
      (processMoralisItems items).tokens =
          (items.filter moralisKeepToken).map moralisToken ∧
      (processMoralisItems items).portfolioValueUsd =
          ((items.filter moralisKeepToken).map moralisUsd).sum ∧
      (processMoralisItems items).nativeFromMoralis =
          ((items.filter moralisKeepNative).getLast?).map moralisNativeInfo) ∧
    (∀ (b : Bool) (items : List CovalentItem),
      processCovalentItems (items.map (covSetNative b)) = processCovalentItems items) ∧
    (∀ r : CovalentResult, (covalentToTokenData r).nativeFromMoralis = none) := by
  refine ⟨fun items => ?_, fun b items => processCovalentItems_setNative b items, fun r => rfl⟩
  rw [processMoralisItems_char]
  exact ⟨rfl, rfl, rfl⟩

/-- Claim C2 (counterexample to the original claim): the Covalent adapter
does *not* separate an inline native token.  On a payload whose single
item is flagged `native_token`, the item still appears in the returned
token list and its USD value is counted in the portfolio total, and no
provider-native value is surfaced. -/
theorem covalent_native_not_separated_cex :
    (⟨some "Ether", some "ETH", "5", some 0, some 10, true⟩ : CovalentItem).native_token = true ∧
    processCovalentItems [⟨some "Ether", some "ETH", "5", some 0, some 10, true⟩] =
      some ⟨[⟨some "Ether", some "ETH", .num 5, 0, 10, none⟩], 10⟩ := by
  refine ⟨rfl, ?_⟩
  have hconv : covalentConv ⟨some "Ether", some "ETH", "5", some 0, some 10, true⟩ =
      some ⟨some "Ether", some "ETH", .num 5, 0, 10, none⟩ := by
    unfold covalentConv
    have hd : decVal? "5" = some 5 := by decide
    rw [if_neg (by decide), hd]
    norm_num
  have hfilter : List.filter covalentKeep
      [⟨some "Ether", some "ETH", "5", some 0, some 10, true⟩] =
      [⟨some "Ether", some "ETH", "5", some 0, some 10, true⟩] := by
    simp [covalentKeep]
  simp only [processCovalentItems, hfilter, covalentMapTokens, hconv, covalentPortfolio,
    List.foldl]
  norm_num

/-- Claim C8: entries whose raw balance is the zero string `'0'` are
excluded by both token-balance adapters: removing them from the payload
changes neither adapter's result (so they contribute nothing to the token
list, the portfolio total, or the surfaced native value). -/
theorem zero_balance_entries_excluded :
    (∀ items : List MoralisItem,
      processMoralisItems (items.filter fun it => decide (it.balance ≠ "0")) =
        processMoralisItems items) ∧
    (∀ items : List CovalentItem,
      processCovalentItems (items.filter fun it => decide (it.balance ≠ "0")) =
        processCovalentItems items) := by
  constructor
  · intro items
    unfold processMoralisItems
    rw [moralis_foldl_filter_zero]
  · intro items
    refine processCovalentItems_filter _ (fun it hk => ?_) items
    unfold covalentKeep at hk
    exact (Bool.and_eq_true _ _ |>.mp hk).1

/-- Claim C10: the Covalent adapter drops every entry whose USD quote is
exactly 0 (`item.quote !== 0`), even with a non-zero raw balance:
removing the quote-0 entries from the payload changes nothing. -/
theorem covalent_zero_quote_dropped :
    ∀ items : List CovalentItem,
      processCovalentItems (items.filter fun it => decide (it.quote ≠ some 0)) =
        processCovalentItems items := by
  intro items
  refine processCovalentItems_filter _ (fun it hk => ?_) items
  unfold covalentKeep at hk
  exact (Bool.and_eq_true _ _ |>.mp hk).2

/-- Claim C9: unit conversion is exact division by the chain's base-unit
factor: `10^18` wei is `1.0` native, `10^9` lamports is `1.0` SOL, in
general the adapters divide exactly, and a Covalent raw balance
`"150000"` with 3 decimals becomes `150.0`. -/
theorem unit_conversion_exact :
    getEvmNativeBalance (some 1000000000000000000) = .num 1 ∧
    getSolanaBalance (.num 1000000000) = .num 1 ∧
    (∀ wei : ℤ, getEvmNativeBalance (some wei) =
        .num ((wei : ℚ) / 1000000000000000000)) ∧
    (∀ lamports : ℚ, getSolanaBalance (.num lamports) = .num (lamports / 1000000000)) ∧
    processCovalentItems [⟨some "Tok", some "TOK", "150000", some 3, some 1, false⟩] =
      some ⟨[⟨some "Tok", some "TOK", .num 150, 3, 1, none⟩], 1⟩ := by
  refine ⟨?_, ?_, fun wei => rfl, fun lamports => rfl, ?_⟩
  · show JsVal.num ((1000000000000000000 : ℚ) / 1000000000000000000) = .num 1
    norm_num
  · show JsVal.num ((1000000000 : ℚ) / 1000000000) = .num 1
    norm_num
  · have hconv : covalentConv ⟨some "Tok", some "TOK", "150000", some 3, some 1, false⟩ =
        some ⟨some "Tok", some "TOK", .num 150, 3, 1, none⟩ := by
      unfold covalentConv
      have hd : decVal? "150000" = some 150000 := by decide
      rw [if_neg (by decide), hd]
      norm_num
    have hfilter : List.filter covalentKeep
        [⟨some "Tok", some "TOK", "150000", some 3, some 1, false⟩] =
        [⟨some "Tok", some "TOK", "150000", some 3, some 1, false⟩] := by
      simp [covalentKeep]
    simp only [processCovalentItems, hfilter, covalentMapTokens, hconv, covalentPortfolio,
      List.foldl]
    norm_num

/-! ### Claim theorems: merge policy and routing -/

/-- Claim C1: exactly one token-data source is consulted per balances
request.  With a Moralis key configured, Moralis serves both Solana and
EVM networks and the whole response is independent of the Covalent
outcome; without a Moralis key, Covalent serves EVM networks when its key
is configured and the response is independent of the Moralis outcome;
Solana without a Moralis key gets no token data and depends on neither
provider.  In particular the two providers' results are never merged. -/
theorem token_source_selection :
    ∀ (nw : Network) (a : String) (env : Env) (r : Option ℤ) (sl : JsVal)
      (m : Option (List MoralisItem)) (c : Option (List CovalentItem)) (p : Option ℚ)
      (mt : Option (List MoralisTxItem)) (ct : Option (List CovalentTxItem))
      (ss : Option (List SolanaSig)),
      (env.moralisKey = true →
        (tokenFetch nw env ⟨r, sl, m, c, p, mt, ct, ss⟩).1 = getMoralisBalances true m ∧
        ∀ c', handleBalances nw a env ⟨r, sl, m, c, p, mt, ct, ss⟩ =
              handleBalances nw a env ⟨r, sl, m, c', p, mt, ct, ss⟩) ∧
      (env.moralisKey = false → env.covalentKey = true → nw ≠ .solana →
        (tokenFetch nw env ⟨r, sl, m, c, p, mt, ct, ss⟩).1 =
            (getCovalentBalances true c).map covalentToTokenData ∧
        ∀ m', handleBalances nw a env ⟨r, sl, m, c, p, mt, ct, ss⟩ =
              handleBalances nw a env ⟨r, sl, m', c, p, mt, ct, ss⟩) ∧
      (env.moralisKey = false → nw = .solana →
        (tokenFetch nw env ⟨r, sl, m, c, p, mt, ct, ss⟩).1 = none ∧
        ∀ m' c', handleBalances nw a env ⟨r, sl, m, c, p, mt, ct, ss⟩ =
                 handleBalances nw a env ⟨r, sl, m', c', p, mt, ct, ss⟩) := by
  intro nw a env r sl m c p mt ct ss
  rcases env with ⟨mk, ck⟩
  refine ⟨fun hm => ?_, fun hm hc hs => ?_, fun hm hs => ?_⟩
  · have hm' : mk = true := hm
    subst hm'
    constructor
    · cases nw <;> simp [tokenFetch]
    · intro c'
      cases nw <;>
        simp [handleBalances, nativeBalanceFinal, nativeValueUsdFinal, nativeValueUsd0,
          rpcNativeOf, tokenFetch]
  · have hm' : mk = false := hm
    have hc' : ck = true := hc
    subst hm'
    subst hc'
    constructor
    · cases nw with
      | solana => exact absurd rfl hs
      | _ => simp [tokenFetch]
    · intro m'
      cases nw with
      | solana => exact absurd rfl hs
      | _ =>
        simp [handleBalances, nativeBalanceFinal, nativeValueUsdFinal, nativeValueUsd0,
          rpcNativeOf, tokenFetch]
  · have hm' : mk = false := hm
    subst hm'
    subst hs
    constructor
    · cases ck <;> simp [tokenFetch]
    · intro m' c'
      cases ck <;>
        simp [handleBalances, nativeBalanceFinal, nativeValueUsdFinal, nativeValueUsd0,
          rpcNativeOf, tokenFetch]

/-- Witness for C1: concrete instances of all three selection modes. -/
theorem token_source_selection_witness :
    (tokenFetch .ethereum ⟨true, false⟩ worldNone).1 = getMoralisBalances true none ∧
    handleBalances .solana "0xabc" ⟨false, false⟩ worldNone =
      handleBalances .solana "0xabc" ⟨false, false⟩
        ⟨none, .null, some [], some [], none, none, none, none⟩ := by
  constructor
  · exact ((token_source_selection .ethereum "0xabc" ⟨true, false⟩
      none .null none none none none none none).1 rfl).1
  · have h := ((token_source_selection .solana "0xabc" ⟨false, false⟩
      none .null none none none none none none).2.2 rfl rfl).2 (some []) (some [])
    have hp : worldNone = (⟨none, .null, none, none, none, none, none, none⟩ : World) := rfl
    rw [hp]
    exact h

/-- Claim C3: whenever the RPC native-balance fetch yields no usable
value (`null` or `NaN`) and the selected provider surfaced a native
balance, the response's `nativeBalance` equals the provider's value. -/
theorem native_balance_fallback (nw : Network) (a : String) (env : Env) (w : World)
    (mn : NativeInfo)
    (hrpc : rpcNativeOf nw w = .null ∨ rpcNativeOf nw w = .nan)
    (hmn : (tokenFetch nw env w).2 = some mn) :
    (handleBalances nw a env w).nativeBalance = mn.balance := by
  show nativeBalanceFinal nw env w = mn.balance
  unfold nativeBalanceFinal
  rcases hrpc with h | h <;> rw [h, hmn]

/-- Witness for C3: failed EVM RPC fetch, Moralis surfacing a native
balance; the response carries the Moralis figure. -/
theorem native_balance_fallback_witness :
    (handleBalances .ethereum "0xabc" ⟨true, false⟩
        ⟨none, .null, some [⟨some "Wrapped", none, some "SOL", "5", some 0, some 10, true⟩],
         none, none, none, none, none⟩).nativeBalance =
      (moralisNativeInfo ⟨some "Wrapped", none, some "SOL", "5", some 0, some 10, true⟩).balance := by
  exact native_balance_fallback .ethereum "0xabc" ⟨true, false⟩
    ⟨none, .null, some [⟨some "Wrapped", none, some "SOL", "5", some 0, some 10, true⟩],
     none, none, none, none, none⟩
    (moralisNativeInfo ⟨some "Wrapped", none, some "SOL", "5", some 0, some 10, true⟩)
    (Or.inl rfl) rfl

/-- Claim C4 (amended): `nativeValueUsd` is the product of the RPC-derived
native balance and the price when both are present (a `NaN` balance gives
`NaN`); when that step yields `null` and the provider surfaced a native
USD value, it is that provider value; otherwise `null`. -/
theorem native_value_usd_char (nw : Network) (a : String) (env : Env) (w : World) :
    (handleBalances nw a env w).nativeValueUsd =
      match rpcNativeOf nw w, w.price, (tokenFetch nw env w).2 with
      | .num q, some p, _ => .num (q * p)
      | .nan, some _, _ => .nan
      | _, _, some mn => .num mn.usd
      | _, _, none => .null := by
  show nativeValueUsdFinal nw env w = _
  unfold nativeValueUsdFinal nativeValueUsd0
  cases hr : rpcNativeOf nw w <;> cases hp : w.price <;>
    cases hm : (tokenFetch nw env w).2 <;> simp

/-- Claim C4 (counterexample to the original claim): the price lookup
failed (`price = none`), yet `nativeValueUsd` is not `null` — it is the
USD value Moralis surfaced for the native token. -/
theorem native_value_usd_cex :
    (⟨none, .null, some [⟨some "Wrapped", none, some "SOL", "5", some 0, some 10, true⟩],
      none, none, none, none, none⟩ : World).price = none ∧
    (handleBalances .ethereum "0xabc" ⟨true, false⟩
        ⟨none, .null, some [⟨some "Wrapped", none, some "SOL", "5", some 0, some 10, true⟩],
         none, none, none, none, none⟩).nativeValueUsd = .num 10 :=
  ⟨rfl, rfl⟩

/-- Claim C5 (code evaluation at the failing input): `"constructor"` is
not one of the five recognized identifiers, yet both endpoints answer it
with 200, because the validation `!CHAIN_INFO[network]` finds the
inherited, truthy `Object.prototype.constructor`.  Ordinary invalid or
missing parameters do get 400. -/
theorem invalid_network_constructor_bypasses_400 :
    parseNetwork "constructor" = none ∧
    (handleRequest "GET" "/api/balances" (some "constructor") (some "0xabc")
        ⟨false, false⟩ worldNone).status = 200 ∧
    (handleRequest "GET" "/api/transactions" (some "constructor") (some "0xabc")
        ⟨false, false⟩ worldNone).status = 200 ∧
    (handleRequest "GET" "/api/balances" (some "dogecoin") (some "0xabc")
        ⟨false, false⟩ worldNone).status = 400 ∧
    (handleRequest "GET" "/api/balances" none (some "0xabc")
        ⟨false, false⟩ worldNone).status = 400 ∧
    (handleRequest "GET" "/api/transactions" (some "ethereum") none
        ⟨false, false⟩ worldNone).status = 400 := by
  refine ⟨rfl, ?_, ?_, ?_, ?_, ?_⟩ <;> decide

/-- A GET on `/api/balances` with a recognized network and a non-empty
address always reaches the success path. -/
theorem handleRequest_balances_ok (nw : Network) (a : String) (env : Env) (w : World)
    (ha : a ≠ "") :
    handleRequest "GET" "/api/balances" (some nw.netId) (some a) env w =
      .okBalances (handleBalances nw a env w) := by
  unfold handleRequest
  rw [if_neg (by decide), if_pos (by exact ⟨rfl, rfl⟩)]
  have hval : ¬(nw.netId = "" ∨ a = "" ∨ chainInfoTruthy nw.netId = false) := by
    rintro (h | h | h)
    · exact netId_ne_empty nw h
    · exact ha h
    · rw [chainInfoTruthy_netId nw] at h
      exact absurd h (by decide)
  show (if nw.netId = "" ∨ a = "" ∨ chainInfoTruthy nw.netId = false then
      HttpOutcome.badRequest "Missing or invalid network/address"
    else
      match parseNetwork nw.netId with
      | some nw' => HttpOutcome.okBalances (handleBalances nw' a env w)
      | none => HttpOutcome.okBalancesJunk) = _
  rw [if_neg hval, parseNetwork_netId]

/-- A GET on `/api/transactions` with a recognized network and a
non-empty address always reaches the success path. -/
theorem handleRequest_transactions_ok (nw : Network) (a : String) (env : Env) (w : World)
    (ha : a ≠ "") :
    handleRequest "GET" "/api/transactions" (some nw.netId) (some a) env w =
      .okTransactions (handleTransactions nw a env w) := by
  unfold handleRequest
  rw [if_neg (by decide), if_neg (by decide), if_pos (by exact ⟨rfl, rfl⟩)]
  have hval : ¬(nw.netId = "" ∨ a = "" ∨ chainInfoTruthy nw.netId = false) := by
    rintro (h | h | h)
    · exact netId_ne_empty nw h
    · exact ha h
    · rw [chainInfoTruthy_netId nw] at h
      exact absurd h (by decide)
  show (if nw.netId = "" ∨ a = "" ∨ chainInfoTruthy nw.netId = false then
      HttpOutcome.badRequest "Missing or invalid network/address"
    else
      match parseNetwork nw.netId with
      | some nw' => HttpOutcome.okTransactions (handleTransactions nw' a env w)
      | none => HttpOutcome.okTransactionsJunk) = _
  rw [if_neg hval, parseNetwork_netId]

/-- Claim C6: with neither provider key configured, the balances response
carries `null` for `tokenBalances` and `tokenPortfolioValueUsd`, and the
transactions response for an EVM network carries `null` (not `[]`). -/
theorem no_keys_null_fields (nw : Network) (a : String) (w : World) :
    (handleBalances nw a ⟨false, false⟩ w).tokenBalances = none ∧
    (handleBalances nw a ⟨false, false⟩ w).tokenPortfolioValueUsd = none ∧
    (nw ≠ .solana → (handleTransactions nw a ⟨false, false⟩ w).transactions = none) := by
  have ht : (tokenFetch nw ⟨false, false⟩ w).1 = none := by
    cases nw <;> simp [tokenFetch]
  refine ⟨?_, ?_, fun hs => ?_⟩
  · show ((tokenFetch nw ⟨false, false⟩ w).1).map (·.tokens) = none
    rw [ht]
    rfl
  · show ((tokenFetch nw ⟨false, false⟩ w).1).map (·.portfolioValueUsd) = none
    rw [ht]
    rfl
  · cases nw <;> first
      | exact absurd rfl hs
      | simp [handleTransactions]

/-- Witness for C6: Ethereum request with no keys configured. -/
theorem no_keys_null_fields_witness :
    (handleBalances .ethereum "0xabc" ⟨false, false⟩ worldNone).tokenBalances = none ∧
    (handleTransactions .ethereum "0xabc" ⟨false, false⟩ worldNone).transactions = none :=
  ⟨(no_keys_null_fields .ethereum "0xabc" worldNone).1,
   (no_keys_null_fields .ethereum "0xabc" worldNone).2.2 (by decide)⟩

/-- Claim C7: upstream failures are never propagated as HTTP errors.  For
every valid network and non-empty address, both endpoints answer 200
whatever the upstream outcomes and configured keys; and when every
upstream call fails, the affected fields of both responses are all
`null`. -/
theorem upstream_failure_degrades (nw : Network) (a : String) (env : Env) (w : World)
    (ha : a ≠ "") :
    (handleRequest "GET" "/api/balances" (some nw.netId) (some a) env w).status = 200 ∧
    (handleRequest "GET" "/api/transactions" (some nw.netId) (some a) env w).status = 200 ∧
    (handleBalances nw a env worldNone).nativeBalance = .null ∧
    (handleBalances nw a env worldNone).nativeValueUsd = .null ∧
    (handleBalances nw a env worldNone).tokenBalances = none ∧
    (handleBalances nw a env worldNone).tokenPortfolioValueUsd = none ∧
    (handleTransactions nw a env worldNone).transactions = none := by
  obtain ⟨mk, ck⟩ := env
  have hrpc : rpcNativeOf nw worldNone = .null := by
    cases nw <;> rfl
  have htf2 : (tokenFetch nw ⟨mk, ck⟩ worldNone).2 = none := by
    cases nw <;> cases mk <;> cases ck <;> rfl
  have htf1 : (tokenFetch nw ⟨mk, ck⟩ worldNone).1 = none := by
    cases nw <;> cases mk <;> cases ck <;> rfl
  refine ⟨?_, ?_, ?_, ?_, ?_, ?_, ?_⟩
  · rw [handleRequest_balances_ok nw a ⟨mk, ck⟩ w ha]
    rfl
  · rw [handleRequest_transactions_ok nw a ⟨mk, ck⟩ w ha]
    rfl
  · show nativeBalanceFinal nw ⟨mk, ck⟩ worldNone = .null
    unfold nativeBalanceFinal
    rw [hrpc, htf2]
  · show nativeValueUsdFinal nw ⟨mk, ck⟩ worldNone = .null
    unfold nativeValueUsdFinal nativeValueUsd0
    rw [hrpc, htf2]
  · show ((tokenFetch nw ⟨mk, ck⟩ worldNone).1).map (·.tokens) = none
    rw [htf1]
    rfl
  · show ((tokenFetch nw ⟨mk, ck⟩ worldNone).1).map (·.portfolioValueUsd) = none
    rw [htf1]
    rfl
  · cases nw <;> cases mk <;> cases ck <;> rfl

/-- Witness for C7: Polygon request with both keys configured and every
upstream call failing. -/
theorem upstream_failure_degrades_witness :
    (handleRequest "GET" "/api/balances" (some (Network.netId .polygon)) (some "0xabc")
        ⟨true, true⟩ worldNone).status = 200 ∧
    (handleRequest "GET" "/api/transactions" (some (Network.netId .polygon)) (some "0xabc")
        ⟨true, true⟩ worldNone).status = 200 ∧
    (handleBalances .polygon "0xabc" ⟨true, true⟩ worldNone).nativeBalance = .null ∧
    (handleBalances .polygon "0xabc" ⟨true, true⟩ worldNone).nativeValueUsd = .null ∧
    (handleBalances .polygon "0xabc" ⟨true, true⟩ worldNone).tokenBalances = none ∧
    (handleBalances .polygon "0xabc" ⟨true, true⟩ worldNone).tokenPortfolioValueUsd = none ∧
    (handleTransactions .polygon "0xabc" ⟨true, true⟩ worldNone).transactions = none :=
  upstream_failure_degrades .polygon "0xabc" ⟨true, true⟩ worldNone (by decide)
